import Mathlib

/-!
Shallow embedding of `src/beads-worker.py` (autonomous bead execution loop).

The script repeatedly: queries the `bd` tracker for ready tasks, keeps those
with priority ≤ 1, stable-sorts them ascending by priority, takes the head,
re-fetches its detail, and either asks the Gemini agent to decompose it
(`epic`/`feature`) or to execute it; in the execute case it re-fetches the
task afterwards and halts with exit 1 unless its status is exactly "closed".

External effects are modelled explicitly:
* a `subprocess` invocation is an `Option InvocationResult` (`none` models
  `run_shell_command` returning `None` because `Popen` raised);
* `json.loads` applied to tracker output is an oracle
  `String → Option (List Task)` (`none` models `JSONDecodeError`);
* a Python function that can print, call `sys.exit`, raise, or return is a
  `CmdResult`; the whole loop body is `iterate : LoopEnv → IterTrace`.
-/

namespace BeadsWorker

/-- One task record as used by the script: every field is read with `.get`,
so every field is optional (`t.get('priority', 999)` becomes
`t.priority.getD 999`). -/
structure Task where
  id : Option String
  priority : Option Int
  issue_type : Option String
  title : Option String
  status : Option String
deriving Repr, DecidableEq

/-- The dictionary returned by `run_shell_command` on a successful spawn:
trimmed stdout, trimmed stderr, and the return code. -/
structure InvocationResult where
  stdout : String
  stderr : String
  returncode : Int
deriving Repr, DecidableEq

/-- Outcome of running one of the Python helper functions: it either calls
`sys.exit code` (after printing `log`), raises an unhandled exception
(after printing `log`), or returns a value (after printing `log`). -/
inductive CmdResult (α : Type) where
  | sysExit (log : List String) (code : Nat)
  | raised (log : List String)
  | ok (log : List String) (val : α)
deriving Repr, DecidableEq

/-- True on the `sysExit` outcome only: the process was halted via
`sys.exit` (an explicit, message-accompanied halt), as opposed to an
unhandled exception or a normal return. -/
def CmdResult.isSysExit {α : Type} : CmdResult α → Bool
  | .sysExit _ _ => true
  | _ => false

/-- Python truthiness of `task.get('id')`: falsy iff the field is missing
(`None`) or the empty string. -/
def truthy : Option String → Bool
  | none => false
  | some s => s != ""

/-- Python `f"...{x}..."` rendering of an optional string: `None` prints as
`"None"`. -/
def pyStr : Option String → String
  | none => "None"
  | some s => s

/-- Message printed by `get_ready_tasks` when `shutil.which("bd")` fails. -/
def bdNotFoundMsg : String := "Error: \x27bd\x27 command not found."

/-- `get_ready_tasks` (beads-worker.py lines 78-94).  `bdFound` is the result
of `shutil.which("bd")`; `run` is the outcome of
`run_shell_command(["bd", "ready", "--json"])`; `decodeTasks` is the
`json.loads` oracle.  Note that when `run` is `none` the guard
`if not result or result["returncode"] != 0` is taken, but the diagnostic
`print("Error fetching tasks: " + result["stderr"])` then subscripts `None`
and raises `TypeError`, which no handler catches. -/
def get_ready_tasks (bdFound : Bool) (run : Option InvocationResult)
    (decodeTasks : String → Option (List Task)) : CmdResult (List Task) :=
  if !bdFound then
    .sysExit [bdNotFoundMsg] 1
  else
    match run with
    | none => .raised []
    | some r =>
      if r.returncode != 0 then
        .ok ["Error fetching tasks: " ++ r.stderr] []
      else
        match decodeTasks r.stdout with
        | some tasks => .ok [] tasks
        | none =>
          .ok ["Error parsing JSON from \x27bd ready\x27. Output was: " ++ r.stdout] []

/-- `get_task_details` (beads-worker.py lines 96-107).  `run` is the outcome
of `run_shell_command(["bd", "show", task_id, "--json"])`.  There is no
`shutil.which` check here; when `run` is `none` the diagnostic f-string
subscripts `None` (`result['stderr']`) and raises `TypeError`.  A payload
decoding to `[]` yields `None` (`data[0] if data else None`), and a
`JSONDecodeError` is caught and yields `None`. -/
def get_task_details (run : Option InvocationResult)
    (decodeTasks : String → Option (List Task)) (task_id : String) :
    CmdResult (Option Task) :=
  match run with
  | none => .raised []
  | some r =>
    if r.returncode != 0 then
      .ok ["Error fetching details for " ++ task_id ++ ": " ++ r.stderr] none
    else
      match decodeTasks r.stdout with
      | none => .ok [] none
      | some data => .ok [] data.head?

/-- `t.get('priority', 999)`: the sort/filter key of a task. -/
def priorityKey (t : Task) : Int := t.priority.getD 999

/-- The comparison passed (as `key=`) to Python's stable `list.sort`. -/
def priorityLE (a b : Task) : Bool := priorityKey a ≤ priorityKey b

/-- The list comprehension `[t for t in tasks if t.get('priority', 999) <= 1]`. -/
def eligibleTasks (tasks : List Task) : List Task :=
  tasks.filter (fun t => priorityKey t ≤ 1)

/-- `high_priority_tasks` after the filter and the stable ascending sort
(`list.sort` is a stable sort; modelled by the stable `List.mergeSort`). -/
def high_priority_tasks (tasks : List Task) : List Task :=
  (eligibleTasks tasks).mergeSort priorityLE

/-- `high_priority_tasks[0]` when the filtered list is nonempty. -/
def selectTask (tasks : List Task) : Option Task :=
  (high_priority_tasks tasks).head?

/-- The `print("-" * 80)` separator line. -/
def dashLine : String :=
  String.mk (List.replicate 80 (Char.ofNat 45))

/-- `print("✅ No more high-priority ready tasks. Task list clear.")`. -/
def noMoreTasksMsg : String := "✅ No more high-priority ready tasks. Task list clear."

/-- `print("Found a task without an ID, skipping...")`. -/
def skipNoIdMsg : String := "Found a task without an ID, skipping..."

/-- `print(f"Could not load details for {task_id}. Skipping.")`. -/
def couldNotLoadMsg (task_id : String) : String :=
  "Could not load details for " ++ task_id ++ ". Skipping."

/-- `print(f"🚀 Processing {task_id} ({task_type}): {task_title}")`. -/
def processingMsg (task_id : String) (task_type task_title : Option String) : String :=
  "🚀 Processing " ++ task_id ++ " (" ++ pyStr task_type ++ "): " ++ pyStr task_title

/-- `print(f"📋 Decomposing {task_type}...")`. -/
def decomposingMsg (task_type : Option String) : String :=
  "📋 Decomposing " ++ pyStr task_type ++ "..."

/-- The line `call_gemini` always prints; `allowed_tools` is `["all"]` at both
call sites of `main`, and Python renders that list as `['all']`. -/
def callBanner : String :=
  "\n>>> Calling Gemini (gemini-3-pro-preview) with tools: [\x27all\x27]"

/-- `print(f"⚠️  Could not verify status of {task_id}.")`. -/
def couldNotVerifyMsg (task_id : String) : String :=
  "⚠️  Could not verify status of " ++ task_id ++ "."

/-- `print(f"⚠️  Task {task_id} was not closed by the agent. Halting for manual review.")`. -/
def notClosedMsg (task_id : String) : String :=
  "⚠️  Task " ++ task_id ++ " was not closed by the agent. Halting for manual review."

/-- `print(f"✅ Successfully processed {task_id}.\n")`. -/
def successMsg (task_id : String) : String :=
  "✅ Successfully processed " ++ task_id ++ ".\n"

/-- The decomposition prompt built for `epic`/`feature` tasks
(beads-worker.py lines 150-154), with the two `{task_id}` interpolations. -/
def decomposePrompt (task_id : String) : String :=
  "\nload and use the spec skill to decompose " ++ task_id ++
    " into actionable \ntasks. Ensure each task has clear acceptance criteria and verification instructions.\nFocus on breaking it down into items that can be implemented in single sittings.\n"

/-- The fixed `--reason` string of the `bd close` command inside the exec
prompt (beads-worker.py line 173). -/
def closeReasonText : String :=
  "Completed implementation, verified ACs, and checked file bounds."

/-- The `bd close {task_id} --reason "..."` command the exec prompt tells the
agent to run (beads-worker.py line 173). -/
def closeCommandText (task_id : String) : String :=
  "bd close " ++ task_id ++ (" --reason \"" ++ closeReasonText ++ "\"")

/-- The execution prompt built for non-epic, non-feature tasks
(beads-worker.py lines 162-175), with its four direct `{task_id}`
interpolations plus the one inside the `bd close` line. -/
def execPrompt (task_id : String) : String :=
  "\nload and use the exec skill to perform: exec " ++ task_id ++
    (" --instructions \x27\n    Activate skill-exec. Perform the requested work for " ++ task_id ++
    (".\n    \n    CRITICAL QUALITY CHECKS:\n    1. FILE SIZE: If any file you modify or create exceeds 600 lines, you MUST decompose it into smaller, logical modules or components. After decomposition, verify that the logic is preserved and there are no regressions.\n    2. COMPILATION: Confirm the code compiles cleanly (e.g., npm run build, tsc, or equivalent).\n    3. INSPECTION: Perform a thorough code inspection to confirm ALL acceptance criteria for " ++ task_id ++
    (" are met.\n    \n    FINALIZATION:\n    - Commit your changes using conventional commit messages referencing " ++ task_id ++
    (".\n    - Close the bead using: " ++ closeCommandText task_id ++ "\n\x27\n"))))

/-- The external world as one loop iteration of `main` observes it:
whether `shutil.which("bd")` succeeds, the spawn outcome and decode oracle
for the `bd ready` call, for the first `bd show` (detail) call, and for the
second `bd show` (verification) call, plus the boolean result of
`call_gemini` (which `main` never inspects). -/
structure LoopEnv where
  bdFound : Bool
  readyRun : Option InvocationResult
  readyDecode : String → Option (List Task)
  detailRun : Option InvocationResult
  detailDecode : String → Option (List Task)
  agentSuccess : Bool
  verifyRun : Option InvocationResult
  verifyDecode : String → Option (List Task)

/-- How one iteration of the `while True` loop in `main` ends. -/
inductive LoopOutcome where
  | breakLoop
  | continueLoop
  | sysExit (code : Nat)
  | raised
deriving Repr, DecidableEq

/-- Observable behaviour of one loop iteration: the lines printed by the
script itself, the prompts piped to the agent (in order), and how the
iteration ended. -/
structure IterTrace where
  log : List String
  agentPrompts : List String
  outcome : LoopOutcome
deriving Repr, DecidableEq

/-- The process exit code implied by a loop outcome: `break` falls out of
`main` (exit 0), `sys.exit c` exits with `c`, an unhandled exception makes
CPython exit with 1, and `continue` does not exit. -/
def processExitCode : LoopOutcome → Option Nat
  | .breakLoop => some 0
  | .continueLoop => none
  | .sysExit c => some c
  | .raised => some 1

/-- Lines 178-190 of `main`: re-fetch the task's detail and require
`status == "closed"`, else `sys.exit(1)`. -/
def verifyPhase (env : LoopEnv) (log : List String) (task_id : String) : IterTrace :=
  match get_task_details env.verifyRun env.verifyDecode task_id with
  | .sysExit l3 c => ⟨log ++ l3, [], .sysExit c⟩
  | .raised l3 => ⟨log ++ l3, [], .raised⟩
  | .ok l3 none => ⟨log ++ l3 ++ [couldNotVerifyMsg task_id], [], .sysExit 1⟩
  | .ok l3 (some fin) =>
    if fin.status == some "closed" then
      ⟨log ++ l3 ++ [successMsg task_id], [], .continueLoop⟩
    else
      ⟨log ++ l3 ++ [notClosedMsg task_id], [], .sysExit 1⟩

/-- Lines 140-190 of `main`: print the processing header, then branch on
`issue_type`.  `epic`/`feature` go to the decomposition prompt and
`continue` unconditionally (the `success` flag of `call_gemini` is bound
but never read); everything else goes to the execution prompt followed by
the verification phase. -/
def branchPhase (env : LoopEnv) (log : List String) (task_id : String)
    (task_details : Task) : IterTrace :=
  let task_type := task_details.issue_type
  let log2 := log ++ [dashLine, processingMsg task_id task_type task_details.title, dashLine]
  if task_type == some "epic" || task_type == some "feature" then
    ⟨log2 ++ [decomposingMsg task_type, callBanner], [decomposePrompt task_id], .continueLoop⟩
  else
    let t := verifyPhase env (log2 ++ [callBanner]) task_id
    ⟨t.log, execPrompt task_id :: t.agentPrompts, t.outcome⟩

/-- Lines 127-138 of `main`: take `high_priority_tasks[0]`, skip it when its
id is falsy (`None` or `""`), otherwise re-fetch its detail and skip when
no detail is available. -/
def selectPhase (env : LoopEnv) (log : List String) (tasks : List Task) : IterTrace :=
  match selectTask tasks with
  | none => ⟨log ++ [noMoreTasksMsg], [], .breakLoop⟩
  | some current =>
    if truthy current.id then
      let task_id := current.id.getD ""
      match get_task_details env.detailRun env.detailDecode task_id with
      | .sysExit l2 c => ⟨log ++ l2, [], .sysExit c⟩
      | .raised l2 => ⟨log ++ l2, [], .raised⟩
      | .ok l2 none => ⟨log ++ l2 ++ [couldNotLoadMsg task_id], [], .continueLoop⟩
      | .ok l2 (some task_details) => branchPhase env (log ++ l2) task_id task_details
    else
      ⟨log ++ [skipNoIdMsg], [], .continueLoop⟩

/-- One full iteration of the `while True` loop in `main`
(beads-worker.py lines 114-190). -/
def iterate (env : LoopEnv) : IterTrace :=
  match get_ready_tasks env.bdFound env.readyRun env.readyDecode with
  | .sysExit log c => ⟨log, [], .sysExit c⟩
  | .raised log => ⟨log, [], .raised⟩
  | .ok log tasks => selectPhase env log tasks

/-! ### Concrete data used by the witnesses -/

/-- A concrete leaf task of priority 0 used by several witnesses. -/
def wTaskExec : Task := ⟨some "bd-1", some 0, some "task", some "T1", some "open"⟩

/-- `wTaskExec` as the tracker reports it after the agent closed it. -/
def wTaskExecClosed : Task := ⟨some "bd-1", some 0, some "task", some "T1", some "closed"⟩

/-- The spec's example task `{id:"bd-5",priority:0,issue_type:"task"}`. -/
def wTask5 : Task := ⟨some "bd-5", some 0, some "task", none, some "open"⟩

/-- The spec's example task `{id:"bd-2",priority:1,issue_type:"epic"}`. -/
def wTask2 : Task := ⟨some "bd-2", some 1, some "epic", none, some "open"⟩

/-- An eligible task whose id field is present but the empty string. -/
def wTaskNoId : Task := ⟨some "", some 0, some "task", none, some "open"⟩

/-- A world with no ready tasks at all (`bd ready` prints `[]`). -/
def envNoWork : LoopEnv :=
  ⟨true, some ⟨"[]", "", 0⟩, fun _ => some [], none, fun _ => none, true,
    none, fun _ => none⟩

/-- A world whose only ready task has an empty-string id. -/
def envEmptyId : LoopEnv :=
  ⟨true, some ⟨"x", "", 0⟩, fun _ => some [wTaskNoId], none, fun _ => none, true,
    none, fun _ => none⟩

/-- A world whose only ready task is the epic `wTask2`. -/
def envEpic : LoopEnv :=
  ⟨true, some ⟨"x", "", 0⟩, fun _ => some [wTask2], some ⟨"y", "", 0⟩,
    fun _ => some [wTask2], true, none, fun _ => none⟩

/-- A world whose only ready task is the leaf task `wTaskExec`, and whose
verification re-fetch sees it closed. -/
def envExec : LoopEnv :=
  ⟨true, some ⟨"x", "", 0⟩, fun _ => some [wTaskExec], some ⟨"y", "", 0⟩,
    fun _ => some [wTaskExec], true, some ⟨"z", "", 0⟩,
    fun _ => some [wTaskExecClosed]⟩

/-! ### Properties of the priority comparison and the stable sort -/

theorem priorityLE_trans (a b c : Task) :
    priorityLE a b → priorityLE b c → priorityLE a c := by
  simp only [priorityLE, decide_eq_true_eq]
  omega

theorem priorityLE_total (a b : Task) : priorityLE a b || priorityLE b a := by
  simp only [priorityLE, Bool.or_eq_true, decide_eq_true_eq]
  omega

theorem priorityLE_refl (a : Task) : priorityLE a a := by
  simp [priorityLE]

/-- The head of the stable sort is the first element of the input whose key
is no larger than the head's key (stability + sortedness, head form). -/
theorem head_mergeSort_find :
    ∀ (l : List Task) (t : Task) (rest : List Task),
      l.mergeSort priorityLE = t :: rest →
      l.find? (fun u => priorityLE u t) = some t := by
  intro l
  induction l with
  | nil =>
    intro t rest h
    simp at h
  | cons a l ih =>
    intro t rest h
    obtain ⟨l₁, l₂, h₁, h₂, h₃⟩ :=
      List.mergeSort_cons priorityLE_trans priorityLE_total a l
    rw [h] at h₁
    cases l₁ with
    | nil =>
      simp only [List.nil_append, List.cons.injEq] at h₁
      obtain ⟨rfl, rfl⟩ := h₁
      simp [List.find?_cons, priorityLE_refl]
    | cons c l₁ =>
      simp only [List.cons_append, List.cons.injEq] at h₁
      obtain ⟨rfl, -⟩ := h₁
      have hac : priorityLE a t = false := by
        have := h₃ t (List.mem_cons_self t l₁)
        simp_all
      simp only [List.find?_cons, hac]
      exact ih t (l₁ ++ l₂) h₂

/-- The head of the stable sort has the minimal key of the input list. -/
theorem head_mergeSort_min (l : List Task) (t : Task) (rest : List Task)
    (h : l.mergeSort priorityLE = t :: rest) :
    ∀ u ∈ l, priorityKey t ≤ priorityKey u := by
  intro u hu
  have hperm := List.mergeSort_perm l priorityLE
  rw [h] at hperm
  have hu' : u ∈ t :: rest := hperm.mem_iff.mpr hu
  rcases List.mem_cons.mp hu' with rfl | hu''
  · exact le_refl _
  · have hs := List.sorted_mergeSort priorityLE_trans priorityLE_total l
    rw [h] at hs
    have := List.rel_of_pairwise_cons hs hu''
    simpa [priorityLE] using this

/-- `find?` only looks at the predicate's values on the list's elements. -/
theorem find?_congr_mem {α : Type} (p q : α → Bool) :
    ∀ (l : List α), (∀ a ∈ l, p a = q a) → l.find? p = l.find? q := by
  intro l
  induction l with
  | nil => intro _; rfl
  | cons a l ih =>
    intro h
    have ha := h a (List.mem_cons_self a l)
    by_cases hp : p a = true
    · rw [List.find?_cons_of_pos _ hp, List.find?_cons_of_pos _ (ha ▸ hp)]
    · rw [List.find?_cons_of_neg _ hp, List.find?_cons_of_neg _ (by rw [← ha]; exact hp)]
      exact ih (fun b hb => h b (List.mem_cons_of_mem a hb))

/-- `find?` after `filter` is `find?` with the conjoined predicate. -/
theorem find?_filter_eq {α : Type} (p q : α → Bool) :
    ∀ (l : List α), (l.filter p).find? q = l.find? (fun a => p a && q a) := by
  intro l
  induction l with
  | nil => rfl
  | cons a l ih =>
    by_cases hp : p a = true
    · by_cases hq : q a = true
      · rw [List.filter_cons_of_pos hp, List.find?_cons_of_pos _ hq,
          List.find?_cons_of_pos _ (by simp [hp, hq])]
      · rw [List.filter_cons_of_pos hp, List.find?_cons_of_neg _ hq,
          List.find?_cons_of_neg _ (by simp [hq]), ih]
    · rw [List.filter_cons_of_neg (by simpa using hp),
        List.find?_cons_of_neg _ (by simp [hp]), ih]

/-- Destructuring a successful selection: the sorted filtered list starts
with the selected task. -/
theorem selectTask_destruct (tasks : List Task) (t : Task)
    (h : selectTask tasks = some t) :
    ∃ rest, high_priority_tasks tasks = t :: rest := by
  cases hl : high_priority_tasks tasks with
  | nil => rw [selectTask, hl] at h; simp at h
  | cons c cs =>
    rw [selectTask, hl] at h
    simp only [List.head?_cons, Option.some.injEq] at h
    exact ⟨cs, by rw [← h]⟩

/-- A selected task comes from the filtered (priority ≤ 1) list. -/
theorem selected_mem_eligible (tasks : List Task) (t : Task)
    (h : selectTask tasks = some t) : t ∈ eligibleTasks tasks := by
  obtain ⟨rest, hl⟩ := selectTask_destruct tasks t h
  have ht : t ∈ (eligibleTasks tasks).mergeSort priorityLE := by
    rw [high_priority_tasks] at hl
    rw [hl]
    exact List.mem_cons_self t rest
  exact List.mem_mergeSort.mp ht

/-- A selected task's sort key passes the `priority <= 1` filter. -/
theorem selected_key_le_one (tasks : List Task) (t : Task)
    (h : selectTask tasks = some t) : priorityKey t ≤ 1 := by
  have := List.mem_filter.mp (selected_mem_eligible tasks t h)
  simpa using this.2

/-- C1: every task the loop controller selects has a present priority field
that is numerically ≤ 1; a task with priority ≥ 2 or with no priority field
(defaulted to 999) is never chosen. -/
theorem selection_only_top_priority (tasks : List Task) (t : Task)
    (h : selectTask tasks = some t) :
    priorityKey t ≤ 1 ∧ ∃ p, t.priority = some p ∧ p ≤ 1 := by
  have hk := selected_key_le_one tasks t h
  refine ⟨hk, ?_⟩
  cases hp : t.priority with
  | none => rw [priorityKey, hp] at hk; simp at hk
  | some p =>
    rw [priorityKey, hp] at hk
    exact ⟨p, rfl, by simpa using hk⟩

/-- C2: the selected task realises the minimal priority key among the
eligible tasks, and it is the first task in the tracker's returned order
whose key equals that minimum (the sort is stable and ascending). -/
theorem selection_earliest_minimum (tasks : List Task) (t : Task)
    (h : selectTask tasks = some t) :
    (∀ u ∈ eligibleTasks tasks, priorityKey t ≤ priorityKey u) ∧
    tasks.find? (fun u => priorityKey u == priorityKey t) = some t := by
  obtain ⟨rest, hl⟩ := selectTask_destruct tasks t h
  rw [high_priority_tasks] at hl
  have hmin := head_mergeSort_min (eligibleTasks tasks) t rest hl
  have hkt : priorityKey t ≤ 1 := selected_key_le_one tasks t h
  refine ⟨hmin, ?_⟩
  have hfind := head_mergeSort_find (eligibleTasks tasks) t rest hl
  have hconv : (eligibleTasks tasks).find? (fun u => priorityKey u == priorityKey t)
      = some t := by
    rw [← hfind]
    apply find?_congr_mem
    intro u hu
    have hle := hmin u hu
    rw [Bool.eq_iff_iff]
    simp only [priorityLE, beq_iff_eq, decide_eq_true_eq]
    omega
  rw [eligibleTasks, find?_filter_eq] at hconv
  rw [← hconv]
  apply find?_congr_mem
  intro u _
  by_cases he : priorityKey u = priorityKey t
  · simp [beq_iff_eq, he, hkt]
  · simp [beq_iff_eq, he]

theorem selection_only_top_priority_witness :
    selectTask [wTaskExec] = some wTaskExec ∧
    (priorityKey wTaskExec ≤ 1 ∧ ∃ p, wTaskExec.priority = some p ∧ p ≤ 1) :=
  ⟨by simp [selectTask, high_priority_tasks, eligibleTasks, priorityKey, wTaskExec],
   selection_only_top_priority [wTaskExec] wTaskExec
     (by simp [selectTask, high_priority_tasks, eligibleTasks, priorityKey, wTaskExec])⟩

theorem selection_earliest_minimum_witness :
    selectTask [wTask2, wTask5] = some wTask5 ∧
    ((∀ u ∈ eligibleTasks [wTask2, wTask5], priorityKey wTask5 ≤ priorityKey u) ∧
     [wTask2, wTask5].find? (fun u => priorityKey u == priorityKey wTask5)
       = some wTask5) :=
  ⟨by simp [selectTask, high_priority_tasks, eligibleTasks, priorityKey, priorityLE,
        wTask2, wTask5, List.mergeSort, List.merge],
   selection_earliest_minimum [wTask2, wTask5] wTask5
     (by simp [selectTask, high_priority_tasks, eligibleTasks, priorityKey, priorityLE,
        wTask2, wTask5, List.mergeSort, List.merge])⟩

/-! ### Path lemmas for one loop iteration -/

/-- When the ready query returns normally, the iteration is the selection
phase on its result. -/
theorem iterate_ready_ok (env : LoopEnv) (log : List String) (tasks : List Task)
    (h : get_ready_tasks env.bdFound env.readyRun env.readyDecode = .ok log tasks) :
    iterate env = selectPhase env log tasks := by
  rw [iterate, h]

/-- When a task with a truthy id is selected and its detail fetch returns a
record, the iteration reaches the `issue_type` branch. -/
theorem iterate_reaches_branch (env : LoopEnv) (log l2 : List String)
    (tasks : List Task) (current task_details : Task) (task_id : String)
    (hready : get_ready_tasks env.bdFound env.readyRun env.readyDecode = .ok log tasks)
    (hsel : selectTask tasks = some current)
    (hid : current.id = some task_id) (hne : task_id ≠ "")
    (hdet : get_task_details env.detailRun env.detailDecode task_id
      = .ok l2 (some task_details)) :
    iterate env = branchPhase env (log ++ l2) task_id task_details := by
  rw [iterate_ready_ok env log tasks hready]
  have htr : truthy (some task_id) = true := by
    rw [truthy]
    simpa using hne
  simp only [selectPhase, hsel, hid, Option.getD_some, htr, if_true, hdet]

/-- The verification phase never issues an agent prompt of its own. -/
theorem verifyPhase_agentPrompts (env : LoopEnv) (log : List String) (task_id : String) :
    (verifyPhase env log task_id).agentPrompts = [] := by
  unfold verifyPhase
  split
  · rfl
  · rfl
  · rfl
  · split <;> rfl

/-- The `in ["epic", "feature"]` test is false for any other issue type. -/
theorem issue_type_cond_false (o : Option String)
    (hep : o ≠ some "epic") (hfe : o ≠ some "feature") :
    (o == some "epic" || o == some "feature") = false := by
  simp [beq_eq_false_iff_ne, hep, hfe]

/-- On the non-epic, non-feature branch the iteration is: exec prompt, then
the verification phase. -/
theorem branchPhase_exec (env : LoopEnv) (log : List String) (task_id : String)
    (task_details : Task)
    (hep : task_details.issue_type ≠ some "epic")
    (hfe : task_details.issue_type ≠ some "feature") :
    ∃ vlog, branchPhase env log task_id task_details =
      ⟨(verifyPhase env vlog task_id).log,
       execPrompt task_id :: (verifyPhase env vlog task_id).agentPrompts,
       (verifyPhase env vlog task_id).outcome⟩ := by
  refine ⟨log ++ [dashLine,
    processingMsg task_id task_details.issue_type task_details.title, dashLine]
    ++ [callBanner], ?_⟩
  simp only [branchPhase, issue_type_cond_false task_details.issue_type hep hfe,
    Bool.false_eq_true, if_false, List.append_assoc]

/-! ### C3: empty eligible set terminates cleanly -/

/-- C3: when the filtered set of eligible (priority ≤ 1) ready tasks is
empty, the iteration prints the no-more-work message and breaks out of the
loop (process exit code 0) with zero agent invocations. -/
theorem empty_eligible_terminates (env : LoopEnv) (log : List String)
    (tasks : List Task)
    (hready : get_ready_tasks env.bdFound env.readyRun env.readyDecode = .ok log tasks)
    (hempty : eligibleTasks tasks = []) :
    iterate env = ⟨log ++ [noMoreTasksMsg], [], .breakLoop⟩ ∧
    processExitCode (iterate env).outcome = some 0 ∧
    (iterate env).agentPrompts = [] := by
  have hsel : selectTask tasks = none := by
    rw [selectTask, high_priority_tasks, hempty]
    simp
  rw [iterate_ready_ok env log tasks hready]
  simp [selectPhase, hsel, processExitCode]

theorem empty_eligible_terminates_witness :
    (get_ready_tasks envNoWork.bdFound envNoWork.readyRun envNoWork.readyDecode
       = .ok [] [] ∧ eligibleTasks [] = []) ∧
    (iterate envNoWork = ⟨[] ++ [noMoreTasksMsg], [], .breakLoop⟩ ∧
     processExitCode (iterate envNoWork).outcome = some 0 ∧
     (iterate envNoWork).agentPrompts = []) :=
  ⟨⟨rfl, rfl⟩, empty_eligible_terminates envNoWork [] [] rfl rfl⟩

/-! ### C5: epic/feature tasks are decomposed, never verified -/

/-- C5: a selected task whose `issue_type` is `epic` or `feature` makes the
iteration send exactly the decomposition prompt and then re-enter selection
(`continue`), whatever the agent call's boolean result (`env.agentSuccess`
is not inspected anywhere); no close-verification fetch happens and the
outcome is never an exit. -/
theorem epic_feature_decomposes (env : LoopEnv) (log l2 : List String)
    (tasks : List Task) (current task_details : Task) (task_id : String)
    (hready : get_ready_tasks env.bdFound env.readyRun env.readyDecode = .ok log tasks)
    (hsel : selectTask tasks = some current)
    (hid : current.id = some task_id) (hne : task_id ≠ "")
    (hdet : get_task_details env.detailRun env.detailDecode task_id
      = .ok l2 (some task_details))
    (htype : task_details.issue_type = some "epic" ∨
      task_details.issue_type = some "feature") :
    iterate env =
      ⟨log ++ l2 ++ [dashLine,
         processingMsg task_id task_details.issue_type task_details.title, dashLine,
         decomposingMsg task_details.issue_type, callBanner],
       [decomposePrompt task_id], .continueLoop⟩ ∧
    processExitCode (iterate env).outcome = none := by
  rw [iterate_reaches_branch env log l2 tasks current task_details task_id
    hready hsel hid hne hdet]
  rcases htype with h | h <;>
    simp [branchPhase, h, processExitCode]

theorem epic_feature_decomposes_witness :
    (get_ready_tasks envEpic.bdFound envEpic.readyRun envEpic.readyDecode
       = .ok [] [wTask2] ∧
     selectTask [wTask2] = some wTask2 ∧
     wTask2.id = some "bd-2" ∧ "bd-2" ≠ "" ∧
     get_task_details envEpic.detailRun envEpic.detailDecode "bd-2"
       = .ok [] (some wTask2) ∧
     (wTask2.issue_type = some "epic" ∨ wTask2.issue_type = some "feature")) ∧
    (iterate envEpic =
      ⟨[] ++ [] ++ [dashLine,
         processingMsg "bd-2" wTask2.issue_type wTask2.title, dashLine,
         decomposingMsg wTask2.issue_type, callBanner],
       [decomposePrompt "bd-2"], .continueLoop⟩ ∧
     processExitCode (iterate envEpic).outcome = none) :=
  ⟨⟨rfl,
    by simp [selectTask, high_priority_tasks, eligibleTasks, priorityKey, wTask2],
    rfl, by decide, rfl, Or.inl rfl⟩,
   epic_feature_decomposes envEpic [] [] [wTask2] wTask2 wTask2 "bd-2" rfl
     (by simp [selectTask, high_priority_tasks, eligibleTasks, priorityKey, wTask2])
     rfl (by decide) rfl (Or.inl rfl)⟩

/-! ### C4: execute path verifies closure or halts -/

/-- C4: on the execute path the iteration sends exactly the exec prompt and
then re-fetches the task: a missing detail ends the process with exit 1, a
status other than `"closed"` ends it with exit 1 after a diagnostic naming
the task, and status `"closed"` logs the success line and re-enters
selection. -/
theorem exec_path_verification (env : LoopEnv) (log l2 : List String)
    (tasks : List Task) (current task_details : Task) (task_id : String)
    (hready : get_ready_tasks env.bdFound env.readyRun env.readyDecode = .ok log tasks)
    (hsel : selectTask tasks = some current)
    (hid : current.id = some task_id) (hne : task_id ≠ "")
    (hdet : get_task_details env.detailRun env.detailDecode task_id
      = .ok l2 (some task_details))
    (hep : task_details.issue_type ≠ some "epic")
    (hfe : task_details.issue_type ≠ some "feature") :
    (iterate env).agentPrompts = [execPrompt task_id] ∧
    (∀ l3, get_task_details env.verifyRun env.verifyDecode task_id = .ok l3 none →
      (iterate env).outcome = .sysExit 1) ∧
    (∀ l3 fin, get_task_details env.verifyRun env.verifyDecode task_id
        = .ok l3 (some fin) → fin.status ≠ some "closed" →
      (iterate env).outcome = .sysExit 1 ∧ notClosedMsg task_id ∈ (iterate env).log) ∧
    (∀ l3 fin, get_task_details env.verifyRun env.verifyDecode task_id
        = .ok l3 (some fin) → fin.status = some "closed" →
      (iterate env).outcome = .continueLoop ∧ successMsg task_id ∈ (iterate env).log) := by
  rw [iterate_reaches_branch env log l2 tasks current task_details task_id
    hready hsel hid hne hdet]
  obtain ⟨vlog, hbr⟩ := branchPhase_exec env (log ++ l2) task_id task_details hep hfe
  rw [hbr]
  refine ⟨?_, ?_, ?_, ?_⟩
  · simp [verifyPhase_agentPrompts]
  · intro l3 hv
    simp only [verifyPhase, hv]
  · intro l3 fin hv hst
    have hcl : (fin.status == some "closed") = false := by
      simp [beq_eq_false_iff_ne, hst]
    simp [verifyPhase, hv, hcl]
  · intro l3 fin hv hst
    have hcl : (fin.status == some "closed") = true := by
      simp [hst]
    simp [verifyPhase, hv, hcl]

theorem exec_path_verification_witness :
    (get_ready_tasks envExec.bdFound envExec.readyRun envExec.readyDecode
       = .ok [] [wTaskExec] ∧
     selectTask [wTaskExec] = some wTaskExec ∧
     wTaskExec.id = some "bd-1" ∧ "bd-1" ≠ "" ∧
     get_task_details envExec.detailRun envExec.detailDecode "bd-1"
       = .ok [] (some wTaskExec) ∧
     wTaskExec.issue_type ≠ some "epic" ∧ wTaskExec.issue_type ≠ some "feature") ∧
    ((iterate envExec).agentPrompts = [execPrompt "bd-1"] ∧
     (∀ l3, get_task_details envExec.verifyRun envExec.verifyDecode "bd-1"
        = .ok l3 none → (iterate envExec).outcome = .sysExit 1) ∧
     (∀ l3 fin, get_task_details envExec.verifyRun envExec.verifyDecode "bd-1"
        = .ok l3 (some fin) → fin.status ≠ some "closed" →
       (iterate envExec).outcome = .sysExit 1 ∧
         notClosedMsg "bd-1" ∈ (iterate envExec).log) ∧
     (∀ l3 fin, get_task_details envExec.verifyRun envExec.verifyDecode "bd-1"
        = .ok l3 (some fin) → fin.status = some "closed" →
       (iterate envExec).outcome = .continueLoop ∧
         successMsg "bd-1" ∈ (iterate envExec).log)) :=
  ⟨⟨rfl,
    by simp [selectTask, high_priority_tasks, eligibleTasks, priorityKey, wTaskExec],
    rfl, by decide, rfl, by decide, by decide⟩,
   exec_path_verification envExec [] [] [wTaskExec] wTaskExec wTaskExec "bd-1" rfl
     (by simp [selectTask, high_priority_tasks, eligibleTasks, priorityKey, wTaskExec])
     rfl (by decide) rfl (by decide) (by decide)⟩

/-! ### C10: an empty-string id is skipped like a missing id -/

/-- C10: when the selected task's id is the empty string, the iteration
behaves exactly as for a missing id: it prints the skip diagnostic and
re-enters selection, with no detail fetch and no agent invocation (the
resulting trace does not depend on any of the detail/verify/agent fields of
the environment). -/
theorem empty_string_id_skipped (env : LoopEnv) (log : List String)
    (tasks : List Task) (current : Task)
    (hready : get_ready_tasks env.bdFound env.readyRun env.readyDecode = .ok log tasks)
    (hsel : selectTask tasks = some current)
    (hid : current.id = some "" ∨ current.id = none) :
    iterate env = ⟨log ++ [skipNoIdMsg], [], .continueLoop⟩ := by
  rw [iterate_ready_ok env log tasks hready]
  have ht : truthy current.id = false := by
    rcases hid with h | h <;> simp [truthy, h]
  simp [selectPhase, hsel, ht]

theorem empty_string_id_skipped_witness :
    (get_ready_tasks envEmptyId.bdFound envEmptyId.readyRun envEmptyId.readyDecode
       = .ok [] [wTaskNoId] ∧
     selectTask [wTaskNoId] = some wTaskNoId ∧
     (wTaskNoId.id = some "" ∨ wTaskNoId.id = none)) ∧
    iterate envEmptyId = ⟨[] ++ [skipNoIdMsg], [], .continueLoop⟩ :=
  ⟨⟨rfl,
    by simp [selectTask, high_priority_tasks, eligibleTasks, priorityKey, wTaskNoId],
    Or.inl rfl⟩,
   empty_string_id_skipped envEmptyId [] [wTaskNoId] wTaskNoId rfl
     (by simp [selectTask, high_priority_tasks, eligibleTasks, priorityKey, wTaskNoId])
     (Or.inl rfl)⟩

/-! ### C6 and C7: error behaviour of the two tracker operations

The guard `if not result or result["returncode"] != 0` in both functions is
meant to handle `run_shell_command` returning `None`, but the diagnostic
print inside that branch subscripts `result` (`result["stderr"]` /
`result['stderr']`), so the `None` case raises `TypeError` instead of
returning the empty/absent value. -/

/-- C6: evaluation of `get_ready_tasks` on its three failure inputs.  A
non-zero exit and a decode failure are logged and yield `[]`, but a spawn
failure (`run_shell_command` returning `None`) raises `TypeError` out of
the diagnostic print instead of yielding `[]` — the claim's "fails to
start" case crashes the process. -/
theorem ready_fetch_error_behaviour :
    (∀ (d : String → Option (List Task)), get_ready_tasks true none d = .raised []) ∧
    (∀ (d : String → Option (List Task)) (out err : String),
      get_ready_tasks true (some ⟨out, err, 1⟩) d
        = .ok ["Error fetching tasks: " ++ err] []) ∧
    get_ready_tasks true (some ⟨"notjson", "", 0⟩) (fun _ => none)
      = .ok ["Error parsing JSON from \x27bd ready\x27. Output was: notjson"] [] :=
  ⟨fun _ => rfl, fun _ _ _ => rfl, rfl⟩

/-- C7: evaluation of `get_task_details` on all its non-happy inputs.  A
non-zero exit, a decode failure, and an empty decoded list all yield `None`
(and a non-empty list yields its first element), but a failed invocation
(`run_shell_command` returning `None`) raises `TypeError` out of the
diagnostic f-string instead of returning `None`. -/
theorem detail_fetch_error_behaviour :
    (∀ (d : String → Option (List Task)) (tid : String),
      get_task_details none d tid = .raised []) ∧
    (∀ (d : String → Option (List Task)) (out err tid : String),
      get_task_details (some ⟨out, err, 2⟩) d tid
        = .ok ["Error fetching details for " ++ tid ++ ": " ++ err] none) ∧
    (∀ (tid : String),
      get_task_details (some ⟨"[]", "", 0⟩) (fun _ => some []) tid = .ok [] none) ∧
    (∀ (tid : String),
      get_task_details (some ⟨"x", "", 0⟩) (fun _ => none) tid = .ok [] none) ∧
    (∀ (t : Task) (tid : String) (rest : List Task),
      get_task_details (some ⟨"x", "", 0⟩) (fun _ => some (t :: rest)) tid
        = .ok [] (some t)) :=
  ⟨fun _ _ => rfl, fun _ _ _ _ => rfl, fun _ => rfl, fun _ => rfl, fun _ _ _ => rfl⟩

/-! ### C8: only the ready query checks for the tracker executable -/

/-- C8 counterexample: `get_task_details` contains no `shutil.which("bd")`
check.  When the executable is missing its spawn fails
(`run_shell_command` returns `None`, modelled `run = none`), and the
function raises `TypeError` out of its diagnostic print — it does not halt
via `sys.exit` with an explicit error message as the claim asserts for
both operations. -/
theorem detail_fetch_no_which_check :
    get_task_details none (fun _ => none) "bd-1" = .raised [] ∧
    (get_task_details none (fun _ => none) "bd-1").isSysExit = false :=
  ⟨rfl, rfl⟩

/-- C8 (amended): only the list-ready operation checks that the tracker
executable is locatable and halts with the explicit error and exit code 1;
the fetch-detail operation performs no such check, and a missing executable
there surfaces as a failed invocation that raises out of the diagnostic
print. -/
theorem ready_fetch_checks_bd :
    (∀ (run : Option InvocationResult) (d : String → Option (List Task)),
      get_ready_tasks false run d = .sysExit [bdNotFoundMsg] 1) ∧
    (∀ (d : String → Option (List Task)) (task_id : String),
      get_task_details none d task_id = .raised []) :=
  ⟨fun _ _ => rfl, fun _ _ => rfl⟩

/-! ### C9: where the exec prompt embeds the task id -/

/-- C9 counterexample: the close-reason text is the fixed sentence
`closeReasonText`, and it does not contain the task id — here the concrete
id "bd-1" of `wTaskExec`. -/
theorem close_reason_lacks_id : ¬ ("bd-1".data <:+: closeReasonText.data) := by
  decide

/-- A string appended between two others occurs in the concatenation. -/
theorem substring_of_appends (a b c : String) : b.data <:+: ((a ++ b) ++ c).data :=
  ⟨a.data, c.data, by simp⟩

/-- C9 (amended): the execution prompt embeds the task's id in the exec
instruction text and in the `bd close` command line it directs the agent to
run, while the `--reason` text is a fixed string that does not mention the
id. -/
theorem exec_prompt_embeds_id (task_id : String) :
    task_id.data <:+: (execPrompt task_id).data ∧
    task_id.data <:+: (closeCommandText task_id).data := by
  constructor
  · unfold execPrompt
    apply substring_of_appends
  · unfold closeCommandText
    apply substring_of_appends

end BeadsWorker
